import Mathlib

/-!
Shallow embedding of `src/relativity.py` (a manim scene script): the
`ThoughtBubble` composite shape, the `Narrator` asset loading, the scene
driver `AdvancedRelativity.construct` as a trace of stages and animation
batches, and the fixed geometric parameterizations (surface height field,
photon paths).  Planar geometry is modelled over ℚ; the analytic surface
over ℝ.
-/

namespace Genix

/-- A point of the plane (manim's z coordinate is 0 for all 2D shapes used). -/
abbrev Pt := ℚ × ℚ

/-- manim `Circle(radius=r)`: centered at the origin unless moved. -/
structure Circ where
  center : Pt
  radius : ℚ
deriving DecidableEq

/-- Axis-aligned bounding box, as manim computes for every mobject. -/
structure BBox where
  lo : Pt
  hi : Pt
deriving DecidableEq

/-- Bounding box of a circle of given center and radius. -/
def Circ.bbox (c : Circ) : BBox :=
  ⟨(c.center.1 - c.radius, c.center.2 - c.radius),
   (c.center.1 + c.radius, c.center.2 + c.radius)⟩

/-- Bounding box of the union of two boxes. -/
def BBox.union (a b : BBox) : BBox :=
  ⟨(min a.lo.1 b.lo.1, min a.lo.2 b.lo.2),
   (max a.hi.1 b.hi.1, max a.hi.2 b.hi.2)⟩

/-- Bounding box of a list of circles (`none` for no circles at all). -/
def bboxOf : List Circ → Option BBox
  | [] => none
  | c :: cs => some (cs.foldl (fun b d => b.union d.bbox) c.bbox)

/-- Center of a bounding box: manim's `get_center` of a mobject. -/
def BBox.center (b : BBox) : Pt :=
  ((b.lo.1 + b.hi.1) / 2, (b.lo.2 + b.hi.2) / 2)

/-- A submobject of the `ThoughtBubble` VMobject: either a plain circle or a
`VGroup` of circles (the trailing bubbles). -/
inductive Node where
  | circ (c : Circ)
  | grp (cs : List Circ)
deriving DecidableEq

/-- The circles a node consists of. -/
def Node.circles : Node → List Circ
  | .circ c => [c]
  | .grp cs => cs

/-- A VMobject with its list of submobjects (what `self.add` builds and
`self[i]` indexes). -/
structure VMob where
  children : List Node
deriving DecidableEq

/-- All circles of a composite, flattened (manim's point set). -/
def VMob.circles (m : VMob) : List Circ :=
  m.children.flatMap Node.circles

/-- manim `Mobject.get_center()`: the center of the bounding box of all
points of the mobject. -/
def VMob.get_center (m : VMob) : Option Pt :=
  (bboxOf m.circles).map BBox.center

/-- `get_center` of one submobject. -/
def Node.get_center (n : Node) : Option Pt :=
  (bboxOf n.circles).map BBox.center

/-- manim `mob.next_to(target, DOWN + LEFT, buff)` specialised to circles:
the shift is `target.get_critical_point(DOWN+LEFT) -
mob.get_critical_point(UP+RIGHT) + buff * (DOWN+LEFT)`. -/
def next_to_down_left (c : Circ) (target : Circ) (buff : ℚ) : Circ :=
  { c with center :=
      (c.center.1 + ((target.center.1 - target.radius) - (c.center.1 + c.radius) - buff),
       c.center.2 + ((target.center.2 - target.radius) - (c.center.2 + c.radius) - buff)) }

/-- `main_bubble = Circle(radius=0.7)` of `ThoughtBubble.__init__`. -/
def main_bubble : Circ := ⟨(0, 0), 7/10⟩

/-- The i-th trailing bubble: `Circle(radius=0.15 - i*0.03)` placed by
`next_to(main_bubble, DOWN + LEFT, buff=-0.1 + i*0.1)`. -/
def trailing_bubble (i : ℕ) : Circ :=
  next_to_down_left ⟨(0, 0), 15/100 - (i : ℚ) * (3/100)⟩ main_bubble (-(1/10) + (i : ℚ) * (1/10))

/-- `ThoughtBubble.__init__`: `self.add(main_bubble, bubbles)` where `bubbles`
is the VGroup of the three trailing circles built by the `range(3)` loop. -/
def ThoughtBubble : VMob :=
  ⟨[Node.circ main_bubble, Node.grp ((List.range 3).map trailing_bubble)]⟩

/-- `ThoughtBubble.get_bubble_center`: `self[0].get_center()`. -/
def get_bubble_center (m : VMob) : Option Pt :=
  m.children[0]?.bind Node.get_center

/-- The trailing-circle group of a bubble (submobject at index 1). -/
def trailing_circles (m : VMob) : List Circ :=
  match m.children[1]? with
  | some (Node.grp cs) => cs
  | _ => []

/-- The radii of the trailing circles of the constructed `ThoughtBubble`. -/
def trailing_radii : List ℚ :=
  (trailing_circles ThoughtBubble).map Circ.radius

/-- A rigid-or-scaling transform applied to a whole composite: manim
`shift(v)`, or `scale(k, about_point=p)`. -/
inductive XForm where
  | shiftBy (v : Pt)
  | scaleAbout (p : Pt) (k : ℚ)
deriving DecidableEq

/-- Action of a transform on a point of the plane. -/
def XForm.onPoint : XForm → Pt → Pt
  | .shiftBy v, q => (q.1 + v.1, q.2 + v.2)
  | .scaleAbout p k, q => (p.1 + k * (q.1 - p.1), p.2 + k * (q.2 - p.2))

/-- Factor by which a transform multiplies a radius. -/
def XForm.radiusFactor : XForm → ℚ
  | .shiftBy _ => 1
  | .scaleAbout _ k => k

/-- Action of a transform on a circle. -/
def Circ.transform (t : XForm) (c : Circ) : Circ :=
  ⟨t.onPoint c.center, t.radiusFactor * c.radius⟩

/-- Action of a transform on a submobject. -/
def Node.transform (t : XForm) : Node → Node
  | .circ c => .circ (c.transform t)
  | .grp cs => .grp (cs.map (Circ.transform t))

/-- Action of a transform on a composite: every submobject moves with it. -/
def VMob.transform (t : XForm) (m : VMob) : VMob :=
  ⟨m.children.map (Node.transform t)⟩

/-- A sequence of transforms applied in order. -/
def VMob.applyAll (ts : List XForm) (m : VMob) : VMob :=
  ts.foldl (fun m t => m.transform t) m

/-- manim `Mobject.shift(v)`. -/
def VMob.shift (v : Pt) (m : VMob) : VMob :=
  m.transform (.shiftBy v)

/-- manim `Mobject.scale(k)`: scales about the mobject's own bounding-box
center. -/
def VMob.scale (k : ℚ) (m : VMob) : VMob :=
  match m.get_center with
  | some p => m.transform (.scaleAbout p k)
  | none => m

/-- A bounding box moved rigidly by `v`. -/
def BBox.shift (v : Pt) (b : BBox) : BBox :=
  ⟨(b.lo.1 + v.1, b.lo.2 + v.2), (b.hi.1 + v.1, b.hi.2 + v.2)⟩

/-- The bubble `show_narration` builds: `ThoughtBubble().scale(0.7).next_to(narrator, UP)`.
The `next_to` is a rigid shift whose vector `v` depends on the narrator's
bounding box (an external SVG asset), so it is kept as a parameter. -/
def show_narration_bubble (v : Pt) : VMob :=
  VMob.shift v (VMob.scale (7/10) ThoughtBubble)

/-- Where `show_narration` puts its caption:
`caption.move_to(bubble.get_center())` — the bubble's overall bounding-box
center, not `get_bubble_center`. -/
def show_narration_caption_pos (v : Pt) : Option Pt :=
  (show_narration_bubble v).get_center

/-! ### The scene driver as a trace of stages and animation batches -/

/-- The objects the scene constructs and animates, one constructor per
mobject of the source (narration bubbles and captions indexed by call site:
0 = `introduce_narrator`, 1 = the special-relativity narration, 2 = the
black-hole narration). -/
inductive Obj where
  | title
  | subtitle
  | narrator
  | bubble (n : ℕ)
  | caption (n : ℕ)
  | sr_chapter_title
  | diagram
  | earth_frame
  | ship_frame
  | earth_clock
  | ship_clock
  | gr_chapter_title
  | warped_grid
  | mass
  | event_horizon
  | einstein_eq
  | wave (i : ℕ)
  | accretion_disk
  | photon (i : ℕ)
  | final_text
deriving DecidableEq

/-- The kinds of animation the script plays on an object. -/
inductive AKind where
  | create
  | write
  | fadeIn
  | fadeOut
  | transformInto (dst : Obj)
  | scaleTo (k : ℚ)
deriving DecidableEq

/-- One instruction issued to the renderer: a `self.play(...)` batch whose
animations run concurrently, or a `self.wait(t)`. -/
inductive Event where
  | play (batch : List (Obj × AKind))
  | wait (t : ℚ)
deriving DecidableEq

/-- The five stages `construct` runs. -/
inductive StageName where
  | titleStage
  | narratorIntro
  | specialRelativity
  | generalRelativity
  | conclusion
deriving DecidableEq

/-- How the driver's single run ends. -/
inductive Outcome where
  | done
  | assetNotFound
deriving DecidableEq

/-- `show_title`: write title / fade in subtitle, wait 2, fade both out. -/
def show_title_events : List Event :=
  [ .play [(.title, .write), (.subtitle, .fadeIn)],
    .wait 2,
    .play [(.title, .fadeOut), (.subtitle, .fadeOut)] ]

/-- `introduce_narrator`: create the bubble and write the caption in one
batch, wait 2, fade both out. -/
def introduce_narrator_events : List Event :=
  [ .play [(.bubble 0, .create), (.caption 0, .write)],
    .wait 2,
    .play [(.bubble 0, .fadeOut), (.caption 0, .fadeOut)] ]

/-- `show_narration(narrator, text)` (call site `n`): create the bubble and
write the caption in one batch, wait 3, fade both out. -/
def show_narration_events (n : ℕ) : List Event :=
  [ .play [(.bubble n, .create), (.caption n, .write)],
    .wait 3,
    .play [(.bubble n, .fadeOut), (.caption n, .fadeOut)] ]

/-- `show_time_dilation`: create the clocks, animate their scaling, narrate,
fade the clocks out. -/
def show_time_dilation_events : List Event :=
  [ .play [(.earth_clock, .create), (.ship_clock, .create)],
    .play [(.earth_clock, .scaleTo 1), (.ship_clock, .scaleTo (8/10))] ]
  ++ show_narration_events 1
  ++ [ .play [(.earth_clock, .fadeOut), (.ship_clock, .fadeOut)] ]

/-- `special_relativity_chapter`: title, diagram, time dilation, then the
fade-outs (the reference frames are faded out though never played in). -/
def special_relativity_chapter_events : List Event :=
  [ .play [(.sr_chapter_title, .write)],
    .play [(.diagram, .create)] ]
  ++ show_time_dilation_events
  ++ [ .play [(.diagram, .fadeOut), (.sr_chapter_title, .fadeOut)],
       .play [(.earth_frame, .fadeOut), (.ship_frame, .fadeOut)] ]

/-- `show_gravitational_waves`: one batch creating the five circles. -/
def show_gravitational_waves_events : List Event :=
  [ .play ((List.range 5).map (fun i => (Obj.wave i, AKind.create))) ]

/-- `show_black_hole`: transform the mass into the event horizon, shrink the
grid and create the accretion disk in one batch; create the five photon paths
one play each; narrate. -/
def show_black_hole_events : List Event :=
  [ .play [(.mass, .transformInto .event_horizon), (.warped_grid, .scaleTo (8/10)),
           (.accretion_disk, .create)] ]
  ++ (List.range 5).map (fun i => Event.play [(Obj.photon i, AKind.create)])
  ++ show_narration_events 2

/-- `general_relativity_chapter`: title, curvature surface with mass and the
Einstein equation, gravitational waves, black hole, then fade out only the
chapter title and the equation. -/
def general_relativity_chapter_events : List Event :=
  [ .play [(.gr_chapter_title, .write)],
    .wait 1,
    .play [(.warped_grid, .create), (.mass, .fadeIn), (.einstein_eq, .write)] ]
  ++ show_gravitational_waves_events
  ++ show_black_hole_events
  ++ [ .play [(.gr_chapter_title, .fadeOut), (.einstein_eq, .fadeOut)] ]

/-- The narrator-introduction stage: `self.play(FadeIn(narrator))` followed by
`introduce_narrator(narrator)`. -/
def narrator_intro_events : List Event :=
  Event.play [(.narrator, .fadeIn)] :: introduce_narrator_events

/-- `show_conclusion`: write the final text, wait 3, fade it out. -/
def show_conclusion_events : List Event :=
  [ .play [(.final_text, .write)],
    .wait 3,
    .play [(.final_text, .fadeOut)] ]

/-- `Narrator.__init__` resolves `assets/narrator.svg`; `asset_ok` says
whether the path resolves (`SVGMobject` raises when it does not). -/
def create_narrator (asset_ok : Bool) : Option Obj :=
  if asset_ok then some Obj.narrator else none

/-- `AdvancedRelativity.construct`: the title sequence runs first; then the
narrator is constructed (fatal failure when the asset is missing, so the run
stops with only the title stage emitted); then the remaining stages run in
order. -/
def construct (asset_ok : Bool) : List (StageName × List Event) × Outcome :=
  let titlePart := [(StageName.titleStage, show_title_events)]
  match create_narrator asset_ok with
  | none => (titlePart, .assetNotFound)
  | some _ =>
    (titlePart ++
      [(StageName.narratorIntro, narrator_intro_events),
       (StageName.specialRelativity, special_relativity_chapter_events),
       (StageName.generalRelativity, general_relativity_chapter_events),
       (StageName.conclusion, show_conclusion_events)], .done)

/-- Adding an object to the canvas (manim adds a played-in mobject once). -/
def canvasInsert (o : Obj) (c : List Obj) : List Obj :=
  if o ∈ c then c else c ++ [o]

/-- Effect of one animation on the canvas: `Create`/`Write`/`FadeIn` put the
target on the canvas, `FadeOut` removes it, `Transform(m, target)` keeps `m`
(morphed) on the canvas, an `animate.scale` changes no membership. -/
def applyAnim (c : List Obj) : Obj × AKind → List Obj
  | (o, .create) => canvasInsert o c
  | (o, .write) => canvasInsert o c
  | (o, .fadeIn) => canvasInsert o c
  | (o, .fadeOut) => c.erase o
  | (o, .transformInto _) => canvasInsert o c
  | (_, .scaleTo _) => c

/-- Effect of one event on the canvas. -/
def applyEvent (c : List Obj) : Event → List Obj
  | .play batch => batch.foldl applyAnim c
  | .wait _ => c

/-- Canvas contents after a list of events, from a starting canvas. -/
def canvasAfter (evs : List Event) (c : List Obj) : List Obj :=
  evs.foldl applyEvent c

/-- All events the run emits strictly before stage `s` begins. -/
def eventsBefore (s : StageName) (run : List (StageName × List Event)) : List Event :=
  (run.takeWhile (fun p => p.1 != s)).flatMap Prod.snd

/-- Canvas contents at entry to stage `s` of the run with the given asset
availability, starting from the empty canvas. -/
def canvas_entering (s : StageName) (asset_ok : Bool) : List Obj :=
  canvasAfter (eventsBefore s (construct asset_ok).1) []

/-! ### Global rendering configuration -/

/-- The rendering state `configure_global_settings` touches, together with
camera angles it does not touch. -/
structure SceneConfig where
  background_color : String
  frame_width : ℚ
  frame_height : ℚ
  pixel_width : ℕ
  pixel_height : ℕ
  camera_phi : ℚ
  camera_theta : ℚ
deriving DecidableEq

/-- `configure_global_settings`: sets the background color and the four frame
constants, leaving everything else as it was. -/
def configure_global_settings (s : SceneConfig) : SceneConfig :=
  { s with
    background_color := "#1a1a1a"
    frame_width := 16
    frame_height := 9
    pixel_width := 1920
    pixel_height := 1080 }

/-! ### The fixed geometric parameterizations (over ℝ) -/

/-- The surface point of `create_spacetime_curvature`:
`lambda u, v: [u, v, 0.5 * exp(-(u^2 + v^2))]`. -/
noncomputable def create_spacetime_curvature_point (u v : ℝ) : ℝ × ℝ × ℝ :=
  (u, v, 0.5 * Real.exp (-(u ^ 2 + v ^ 2)))

/-- A `ParametricFunction`: a curve and its parameter range. -/
structure ParametricFunction where
  f : ℝ → ℝ × ℝ × ℝ
  t_min : ℝ
  t_max : ℝ

/-- The curve each photon path is built from:
`lambda t: [1.5*cos(t), 1.5*sin(t), 0.5*sin(2*t)]`. -/
noncomputable def photon_path_fn (t : ℝ) : ℝ × ℝ × ℝ :=
  (1.5 * Real.cos t, 1.5 * Real.sin t, 0.5 * Real.sin (2 * t))

/-- `create_photon_paths`: five `ParametricFunction`s built by the same
comprehension over `range(5)`, every one from the same lambda over
`t_range=[0, 2*PI]`. -/
noncomputable def create_photon_paths : List ParametricFunction :=
  (List.range 5).map (fun _ =>
    { f := fun t => (1.5 * Real.cos t, 1.5 * Real.sin t, 0.5 * Real.sin (2 * t)),
      t_min := 0,
      t_max := 2 * Real.pi })

/-! ### Lemmas about transforms and centers -/

/-- A transform moves a circle's center by its point action. -/
theorem Circ.transform_center (t : XForm) (c : Circ) :
    (c.transform t).center = t.onPoint c.center := rfl

/-- Folding transforms over a circle moves its center by the folded point
actions. -/
theorem foldl_transform_center (ts : List XForm) (c : Circ) :
    (ts.foldl (fun c t => c.transform t) c).center
      = ts.foldl (fun p t => t.onPoint p) c.center := by
  induction ts generalizing c with
  | nil => rfl
  | cons t ts ih => simpa using ih (c.transform t)

/-- `get_center` of a single circle is its geometric center. -/
theorem Node.get_center_circ (c : Circ) :
    (Node.circ c).get_center = some c.center := by
  show some (BBox.center (Circ.bbox c)) = some c.center
  apply congrArg some
  apply Prod.ext <;> simp [BBox.center, Circ.bbox]

/-- Children of a transformed composite are the transformed children. -/
theorem VMob.applyAll_children (ts : List XForm) (m : VMob) :
    (VMob.applyAll ts m).children
      = m.children.map (fun n => ts.foldl (fun n t => Node.transform t n) n) := by
  induction ts generalizing m with
  | nil => simp [VMob.applyAll]
  | cons t ts ih =>
    show (VMob.applyAll ts (m.transform t)).children = _
    rw [ih]
    simp [VMob.transform, List.map_map, Function.comp]

/-- Folding transforms over a circle node yields the circle node of the
folded circle. -/
theorem foldl_node_transform_circ (ts : List XForm) (c : Circ) :
    ts.foldl (fun n t => Node.transform t n) (Node.circ c)
      = Node.circ (ts.foldl (fun c t => c.transform t) c) := by
  induction ts generalizing c with
  | nil => rfl
  | cons t ts ih => simpa using ih (c.transform t)

/-- A shift moves a circle's bounding box rigidly. -/
theorem Circ.bbox_shiftBy (v : Pt) (c : Circ) :
    (Circ.transform (XForm.shiftBy v) c).bbox = c.bbox.shift v := by
  simp only [Circ.transform, Circ.bbox, BBox.shift, XForm.onPoint, XForm.radiusFactor,
    BBox.mk.injEq, Prod.mk.injEq]
  refine ⟨⟨by ring, by ring⟩, by ring, by ring⟩

/-- Union of shifted boxes is the shifted union. -/
theorem BBox.union_shiftBy (v : Pt) (a b : BBox) :
    (a.shift v).union (b.shift v) = (a.union b).shift v := by
  simp only [BBox.shift, BBox.union, BBox.mk.injEq, Prod.mk.injEq]
  exact ⟨⟨min_add_add_right .., min_add_add_right ..⟩,
    max_add_add_right .., max_add_add_right ..⟩

/-- Folding box unions over shifted circles shifts the folded box. -/
theorem foldl_union_shiftBy (v : Pt) (cs : List Circ) (b : BBox) :
    (cs.map (Circ.transform (XForm.shiftBy v))).foldl (fun b d => b.union d.bbox) (b.shift v)
      = (cs.foldl (fun b d => b.union d.bbox) b).shift v := by
  induction cs generalizing b with
  | nil => rfl
  | cons c cs ih =>
    simp only [List.map_cons, List.foldl_cons, Circ.bbox_shiftBy, BBox.union_shiftBy]
    exact ih _

/-- Bounding box of shifted circles is the shifted bounding box. -/
theorem bboxOf_shiftBy (v : Pt) (cs : List Circ) :
    bboxOf (cs.map (Circ.transform (XForm.shiftBy v)))
      = (bboxOf cs).map (BBox.shift v) := by
  cases cs with
  | nil => rfl
  | cons c cs =>
    simp only [List.map_cons, bboxOf, Option.map_some', Circ.bbox_shiftBy]
    exact congrArg some (foldl_union_shiftBy v cs c.bbox)

/-- Center of a shifted box is the shifted center. -/
theorem BBox.center_shiftBy (v : Pt) (b : BBox) :
    (b.shift v).center = (b.center.1 + v.1, b.center.2 + v.2) := by
  apply Prod.ext <;> simp [BBox.shift, BBox.center] <;> ring

/-- Circles of a transformed node are the transformed circles. -/
theorem Node.transform_circles_eq (t : XForm) (n : Node) :
    (n.transform t).circles = n.circles.map (Circ.transform t) := by
  cases n <;> rfl

/-- Circles of a transformed composite are the transformed circles. -/
theorem VMob.circles_transform (t : XForm) (m : VMob) :
    (m.transform t).circles = m.circles.map (Circ.transform t) := by
  simp [VMob.transform, VMob.circles, List.flatMap_map, Node.transform_circles_eq,
    List.map_flatMap]

/-- `get_center` commutes with a rigid shift of the composite. -/
theorem VMob.get_center_shiftBy (v : Pt) (m : VMob) :
    (VMob.shift v m).get_center = m.get_center.map (fun p => (p.1 + v.1, p.2 + v.2)) := by
  rw [VMob.shift, VMob.get_center, VMob.circles_transform, bboxOf_shiftBy, VMob.get_center]
  cases bboxOf m.circles with
  | none => rfl
  | some b => simp [BBox.center_shiftBy]

/-- `get_center` of one node commutes with a rigid shift. -/
theorem Node.transform_get_center_shiftBy (v : Pt) (n : Node) :
    (n.transform (XForm.shiftBy v)).get_center
      = n.get_center.map (fun p => (p.1 + v.1, p.2 + v.2)) := by
  rw [Node.get_center, Node.transform_circles_eq, bboxOf_shiftBy, Node.get_center]
  cases bboxOf n.circles with
  | none => rfl
  | some b => simp [BBox.center_shiftBy]

/-- `get_bubble_center` commutes with a rigid shift of the composite. -/
theorem get_bubble_center_shiftBy (v : Pt) (m : VMob) :
    get_bubble_center (VMob.shift v m)
      = (get_bubble_center m).map (fun p => (p.1 + v.1, p.2 + v.2)) := by
  rw [get_bubble_center, get_bubble_center, VMob.shift, VMob.transform]
  show (m.children.map (Node.transform (XForm.shiftBy v)))[0]?.bind Node.get_center = _
  rw [List.getElem?_map]
  cases m.children[0]? with
  | none => rfl
  | some n => simp [Node.transform_get_center_shiftBy]

/-- The overall center of the scaled `ThoughtBubble` of `show_narration`. -/
theorem scaled_bubble_center :
    (VMob.scale (7/10) ThoughtBubble).get_center = some (-(7/50), -(7/50)) := by
  norm_num [VMob.scale, VMob.get_center, VMob.circles, Node.circles, bboxOf,
    BBox.union, Circ.bbox, BBox.center, VMob.transform, Node.transform, Circ.transform,
    XForm.onPoint, XForm.radiusFactor, ThoughtBubble, trailing_bubble, next_to_down_left,
    main_bubble, List.range_succ, min_def, max_def]

/-- The anchor (main-circle center) of the scaled `ThoughtBubble` of
`show_narration`. -/
theorem scaled_bubble_anchor :
    get_bubble_center (VMob.scale (7/10) ThoughtBubble) = some (-(21/500), -(21/500)) := by
  norm_num [get_bubble_center, VMob.scale, VMob.get_center, VMob.circles, Node.circles,
    Node.get_center, bboxOf, BBox.union, Circ.bbox, BBox.center, VMob.transform,
    Node.transform, Circ.transform, XForm.onPoint, XForm.radiusFactor, ThoughtBubble,
    trailing_bubble, next_to_down_left, main_bubble, List.range_succ, min_def, max_def]

/-! ### Claim theorems -/

/-- C1: the driver's single run executes exactly the five stages Title,
NarratorIntro, SpecialRelativityChapter, GeneralRelativityChapter,
Conclusion, strictly in that order with no reordering, skipping, or
repetition, and reaches Done.  `construct` is a pure function of the asset
availability alone, so every run (two successive runs included) produces
this same stage sequence. -/
theorem construct_stage_order :
    (construct true).1.map Prod.fst
        = [StageName.titleStage, StageName.narratorIntro, StageName.specialRelativity,
           StageName.generalRelativity, StageName.conclusion] ∧
    ((construct true).1.map Prod.fst).Nodup ∧
    (construct true).2 = Outcome.done := by
  decide

set_option maxRecDepth 8192 in
/-- C2 counterexample: the canvas entering the Conclusion stage contains the
accretion disk (an object the GeneralRelativity stage created), which is not
the narrator, so the claim that every stage fades out everything it
introduced is false on the code. -/
theorem general_relativity_leftovers :
    Obj.accretion_disk ∈ canvas_entering StageName.conclusion true ∧
    Obj.accretion_disk ≠ Obj.narrator := by
  decide

set_option maxRecDepth 8192 in
/-- C2 amended: the Title, NarratorIntro and SpecialRelativity stages fade
out everything they introduce, so the canvas entering NarratorIntro is
empty and the canvas entering SpecialRelativity and GeneralRelativity holds
only the persistent narrator; the GeneralRelativity stage however fades out
only its chapter title and the Einstein equation, so the canvas entering
Conclusion still holds the warped grid, the (transformed) mass, the five
gravitational-wave circles, the accretion disk and the five photon paths. -/
theorem stage_entry_canvas :
    canvas_entering StageName.narratorIntro true = [] ∧
    canvas_entering StageName.specialRelativity true = [Obj.narrator] ∧
    canvas_entering StageName.generalRelativity true = [Obj.narrator] ∧
    canvas_entering StageName.conclusion true
        = [Obj.narrator, Obj.warped_grid, Obj.mass, Obj.wave 0, Obj.wave 1, Obj.wave 2,
           Obj.wave 3, Obj.wave 4, Obj.accretion_disk, Obj.photon 0, Obj.photon 1,
           Obj.photon 2, Obj.photon 3, Obj.photon 4] := by
  decide

/-- C3: every `ThoughtBubble` built by the constructor has exactly three
trailing circles, whose radii are `0.15 - i*0.03` for `i = 0, 1, 2` and
strictly decrease. -/
theorem thought_bubble_trailing_radii :
    trailing_radii.length = 3 ∧
    trailing_radii = (List.range 3).map (fun i => 15/100 - (i : ℚ) * (3/100)) ∧
    trailing_radii = [15/100, 12/100, 9/100] ∧
    List.Chain' (fun a b => b < a) trailing_radii := by
  norm_num [trailing_radii, trailing_circles, ThoughtBubble, trailing_bubble,
    next_to_down_left, main_bubble, List.range_succ, List.chain'_cons]

/-- C4: for any sequence of shifts and scalings applied to the composite
after construction, the child at index 0 is still the transformed main
circle, the bubble anchor `get_bubble_center` equals that circle's center,
and that center is the image of the original main-circle center under the
point action of the applied transforms (the anchor moves rigidly with the
shape). -/
theorem get_bubble_center_eq_main_center (ts : List XForm) :
    get_bubble_center (VMob.applyAll ts ThoughtBubble)
        = some ((ts.foldl (fun c t => c.transform t) main_bubble).center) ∧
    (VMob.applyAll ts ThoughtBubble).children[0]?
        = some (Node.circ (ts.foldl (fun c t => c.transform t) main_bubble)) ∧
    (ts.foldl (fun c t => c.transform t) main_bubble).center
        = ts.foldl (fun p t => t.onPoint p) main_bubble.center := by
  have h0 : (VMob.applyAll ts ThoughtBubble).children[0]?
      = some (Node.circ (ts.foldl (fun c t => c.transform t) main_bubble)) := by
    rw [VMob.applyAll_children]
    simp only [ThoughtBubble, List.map_cons, List.getElem?_cons_zero,
      foldl_node_transform_circ]
  refine ⟨?_, h0, foldl_transform_center ts main_bubble⟩
  rw [get_bubble_center, h0]
  simp [Node.get_center_circ]

/-- C5 counterexample: at narrator shift `(0, 0)`, `show_narration` puts the
caption at the bubble's overall bounding-box center `(-0.14, -0.14)`, while
the bubble anchor point (the main circle's center, `get_bubble_center`) is
`(-0.042, -0.042)`; the first coordinate of the one is strictly below the
other, so the caption is not placed at the anchor point. -/
theorem show_narration_caption_off_anchor :
    show_narration_caption_pos (0, 0) = some (-(7/50), -(7/50)) ∧
    get_bubble_center (show_narration_bubble (0, 0)) = some (-(21/500), -(21/500)) ∧
    (-(7:ℚ)/50) < -(21/500) := by
  refine ⟨?_, ?_, by norm_num⟩
  · rw [show_narration_caption_pos, show_narration_bubble, VMob.get_center_shiftBy,
      scaled_bubble_center]
    norm_num
  · rw [show_narration_bubble, get_bubble_center_shiftBy, scaled_bubble_anchor]
    norm_num

/-- C5 amended: for every call site `n` and every narrator placement (the
rigid shift `v` that `next_to(narrator, UP)` applies), `show_narration`
plays the bubble's `Create` and the caption's `Write` in one concurrent
batch, waits a fixed 3 seconds (there is no hold-duration parameter), then
fades both out; but the caption is placed at the bubble's overall
bounding-box center `v + (-0.14, -0.14)`, not at the bubble anchor point
`v + (-0.042, -0.042)` (the main circle's center). -/
theorem show_narration_amended (n : ℕ) (v : Pt) :
    show_narration_events n
        = [Event.play [(Obj.bubble n, AKind.create), (Obj.caption n, AKind.write)],
           Event.wait 3,
           Event.play [(Obj.bubble n, AKind.fadeOut), (Obj.caption n, AKind.fadeOut)]] ∧
    show_narration_caption_pos v = some (-(7/50) + v.1, -(7/50) + v.2) ∧
    get_bubble_center (show_narration_bubble v)
        = some (-(21/500) + v.1, -(21/500) + v.2) := by
  refine ⟨rfl, ?_, ?_⟩
  · rw [show_narration_caption_pos, show_narration_bubble, VMob.get_center_shiftBy,
      scaled_bubble_center]
    rfl
  · rw [show_narration_bubble, get_bubble_center_shiftBy, scaled_bubble_anchor]
    rfl

/-- C6 counterexample: with an unresolvable narrator asset path the run ends
with AssetNotFound, yet its emitted trace contains the Title stage's
fade-out batch, and the title stage's very last event is that fade-out: the
failure happens after the Title fade-out completes, not before. -/
theorem asset_failure_after_title_fadeout :
    (construct false).2 = Outcome.assetNotFound ∧
    Event.play [(Obj.title, AKind.fadeOut), (Obj.subtitle, AKind.fadeOut)]
        ∈ ((construct false).1.flatMap Prod.snd) := by
  decide

/-- C6 amended: with an unresolvable narrator asset path the run fails
fatally (AssetNotFound, no retry or fallback) after the Title stage has run
to completion — its trace is exactly the Title stage, whose final event is
the title/subtitle fade-out batch — and never reaches the NarratorIntro
stage; with a valid asset path the run executes all five stages and reaches
Done. -/
theorem asset_failure_amended :
    construct false = ([(StageName.titleStage, show_title_events)], Outcome.assetNotFound) ∧
    show_title_events.getLast?
        = some (Event.play [(Obj.title, AKind.fadeOut), (Obj.subtitle, AKind.fadeOut)]) ∧
    (construct false).1.map Prod.fst = [StageName.titleStage] ∧
    (construct true).2 = Outcome.done ∧
    ((construct true).1.map Prod.fst).length = 5 := by
  refine ⟨rfl, rfl, ?_, ?_, ?_⟩ <;> decide

/-- C7: the GeneralRelativity surface height `z(u, v) = 0.5 * exp(-(u^2 + v^2))`
equals exactly 0.5 at `(0, 0)`, and tends to 0 as `u^2 + v^2` grows large. -/
theorem surface_height_values :
    (create_spacetime_curvature_point 0 0).2.2 = 0.5 ∧
    Filter.Tendsto (fun p : ℝ × ℝ => (create_spacetime_curvature_point p.1 p.2).2.2)
      (Filter.comap (fun p : ℝ × ℝ => p.1 ^ 2 + p.2 ^ 2) Filter.atTop) (nhds 0) := by
  constructor
  · norm_num [create_spacetime_curvature_point, Real.exp_zero]
  · have h : Filter.Tendsto (fun r : ℝ => 0.5 * Real.exp (-r)) Filter.atTop (nhds 0) := by
      simpa using Real.tendsto_exp_neg_atTop_nhds_zero.const_mul (0.5 : ℝ)
    exact h.comp Filter.tendsto_comap

/-- C8: the frame-configuration step sets fixed constants only, so applying
it twice leaves the rendering configuration exactly as applying it once. -/
theorem configure_global_settings_idem (s : SceneConfig) :
    configure_global_settings (configure_global_settings s)
      = configure_global_settings s := rfl

/-- C9: `create_photon_paths` returns exactly five paths, and the five are
one and the same curve repeated — each uses the parametric function
`(1.5 cos t, 1.5 sin t, 0.5 sin 2t)` over `t ∈ [0, 2π]`, so the photon
paths coincide point for point. -/
theorem create_photon_paths_replicated :
    create_photon_paths
        = List.replicate 5 ⟨photon_path_fn, 0, 2 * Real.pi⟩ ∧
    create_photon_paths.length = 5 := by
  exact ⟨rfl, rfl⟩

/-- C10: the constructed `ThoughtBubble` has at least one top-level child;
the child at index 0 is the main circle of radius 0.7 — never a trailing
circle, whose radii (0.15, 0.12, 0.09) are all strictly below 0.7 — so the
index-0 access of `get_bubble_center` is in bounds. -/
theorem thought_bubble_first_child_main :
    0 < ThoughtBubble.children.length ∧
    ThoughtBubble.children[0]? = some (Node.circ main_bubble) ∧
    main_bubble.radius = 7/10 ∧
    (trailing_circles ThoughtBubble).map Circ.radius = [15/100, 12/100, 9/100] ∧
    (15:ℚ)/100 < main_bubble.radius ∧
    (12:ℚ)/100 < main_bubble.radius ∧
    (9:ℚ)/100 < main_bubble.radius := by
  refine ⟨by decide, rfl, rfl, ?_, ?_, ?_, ?_⟩ <;>
    norm_num [trailing_circles, ThoughtBubble, trailing_bubble, next_to_down_left,
      main_bubble, List.range_succ]

end Genix
